import Mathlib

/-!
Shallow embedding of `src/main.py` from the pytorch-cifar repository:
the model-selection chain, optimizer construction, the per-pass
accounting of `train` and `test`, the optimizer state-switch call sites
in `test`, the per-epoch driver loop, and the log-path / stats.csv
construction of the `__main__` block.
-/

namespace PytorchCifar

/-- The architectures reachable from the `if/elif` chain in `__main__`
(lines 131-163 of `main.py`).  Constructor arguments mirror the Python
constructor calls (`VGG('VGG19')`, `ShuffleNetV2(1)`). -/
inductive Model where
  | VGG (cfg : String)
  | ResNet18
  | PreActResNet18
  | GoogLeNet
  | DenseNet121
  | ResNeXt29_2x64d
  | MobileNet
  | MobileNetV2
  | DPN92
  | ShuffleNetG2
  | SENet18
  | ShuffleNetV2 (groups : Nat)
  | EfficientNetB0
  | RegNetX_200MF
  | SimpleDLA
  deriving DecidableEq, Repr

/-- The model-selection `if/elif` chain of `__main__` (`main.py` lines
131-163): maps `args.model` to a network, or raises
`Exception(f"Unsupported model name {args.model}")` for anything else. -/
def selectModel (name : String) : Except String Model :=
  if name = "vgg" then .ok (.VGG "VGG19")
  else if name = "resnet" then .ok .ResNet18
  else if name = "pre_act_resnet" then .ok .PreActResNet18
  else if name = "googlenet" then .ok .GoogLeNet
  else if name = "densenet" then .ok .DenseNet121
  else if name = "resnex" then .ok .ResNeXt29_2x64d
  else if name = "mobilenet" then .ok .MobileNet
  else if name = "mobilenet_v2" then .ok .MobileNetV2
  else if name = "dpn" then .ok .DPN92
  else if name = "shufflenet" then .ok .ShuffleNetG2
  else if name = "senet" then .ok .SENet18
  else if name = "shufflenet_v2" then .ok (.ShuffleNetV2 1)
  else if name = "efficientnet" then .ok .EfficientNetB0
  else if name = "regnetx" then .ok .RegNetX_200MF
  else if name = "dla" then .ok .SimpleDLA
  else .error ("Unsupported model name " ++ name)

/-- The identifiers accepted by `selectModel`. -/
def supportedModels : List String :=
  ["vgg", "resnet", "pre_act_resnet", "googlenet", "densenet", "resnex",
   "mobilenet", "mobilenet_v2", "dpn", "shufflenet", "senet",
   "shufflenet_v2", "efficientnet", "regnetx", "dla"]

/-- The two optimizer shapes constructed in `__main__` (lines 171-174):
`SGDO(net.parameters(), lr, momentum=0.9, weight_decay=5e-4, overshoot)`
when `args.overshoot > 0`, otherwise
`optim.SGD(net.parameters(), lr, momentum=0.9, weight_decay=5e-4)`. -/
inductive Optimizer where
  | SGD (lr momentum weight_decay : ℚ)
  | SGDO (lr momentum weight_decay overshoot : ℚ)
  deriving DecidableEq, Repr

/-- The `isinstance(optimizer, SGDO)` capability check used at the call
sites in `test` (`main.py` lines 54, 74). -/
def isinstanceSGDO : Optimizer → Bool
  | .SGD _ _ _ => false
  | .SGDO _ _ _ _ => true

/-- argparse default for `--lr` (`main.py` line 84). -/
def defaultLr : ℚ := 1/10

/-- argparse default for `--overshoot` (`main.py` line 85). -/
def defaultOvershoot : ℚ := 0

/-- Optimizer construction of `__main__` (`main.py` lines 171-174). -/
def makeOptimizer (lr overshoot : ℚ) : Optimizer :=
  if overshoot > 0 then
    .SGDO lr (9/10) (5/10000) overshoot
  else
    .SGD lr (9/10) (5/10000)

/-! ## Per-pass accounting shared by `train` and `test`

A batch is the list of `(input, target)` pairs the loader yields; the
network is a function from an input to the per-class score list (the
row that `outputs.max(1)` reduces), and the criterion is the batch-level
scalar that `loss.item()` extracts from `criterion(outputs, targets)`.
-/

/-- First index attaining the maximum score: the `predicted` component of
`outputs.max(1)` for one sample's score row. -/
def argmaxScores (scores : List ℚ) : ℕ :=
  go scores 0 0 0
where
  go : List ℚ → ℕ → ℚ → ℕ → ℕ
    | [], best, _, _ => best
    | s :: rest, best, bestScore, idx =>
        if idx = 0 ∨ s > bestScore then go rest idx s (idx + 1)
        else go rest best bestScore (idx + 1)

/-- Running accumulators of one pass: `train_loss`/`test_loss`,
`correct`, `total`, and the number of loop iterations executed (so that
`batch_idx + 1` after the loop is `batches`, and `batches = 0` marks the
`batch_idx`-never-assigned case of an empty loader). -/
structure PassState where
  loss : ℚ
  correct : ℕ
  total : ℕ
  batches : ℕ
  deriving DecidableEq, Repr

/-- Accumulator state before the `for` loop: `train_loss = 0`,
`correct = 0`, `total = 0`, no iteration executed yet. -/
def initPassState : PassState := ⟨0, 0, 0, 0⟩

/-- `predicted.eq(targets).sum().item()` for one batch: the number of
samples whose argmax prediction equals the target. -/
def batchCorrect (net : α → List ℚ) (batch : List (α × ℕ)) : ℕ :=
  (batch.filter (fun p => argmaxScores (net p.1) = p.2)).length

/-- One iteration of the batch loop of `train` (`main.py` lines 34-45)
or `test` (lines 60-68): accumulate the batch loss, the correct count
and the sample count.  The gradient/step side effects of `train` do not
touch these accumulators. -/
def processBatch (net : α → List ℚ) (criterion : List (List ℚ) → List ℕ → ℚ)
    (s : PassState) (batch : List (α × ℕ)) : PassState :=
  let outputs := batch.map (fun p => net p.1)
  let targets := batch.map (fun p => p.2)
  { loss := s.loss + criterion outputs targets
    correct := s.correct + batchCorrect net batch
    total := s.total + batch.length
    batches := s.batches + 1 }

/-- The whole batch loop of a pass. -/
def passFold (net : α → List ℚ) (criterion : List (List ℚ) → List ℕ → ℚ)
    (loader : List (List (α × ℕ))) : PassState :=
  loader.foldl (processBatch net criterion) initPassState

/-- The value a pass returns (`main.py` line 49 for `train`, line 76 for
`test`): `(loss_sum/(batch_idx+1), 100.*correct/total)`.  When the
loader yields no batch, `batch_idx` was never assigned and the `return`
raises `NameError`; this is the `none` case. -/
def passResult (net : α → List ℚ) (criterion : List (List ℚ) → List ℕ → ℚ)
    (loader : List (List (α × ℕ))) : Option (ℚ × ℚ) :=
  let s := passFold net criterion loader
  if s.batches = 0 then none
  else some (s.loss / s.batches, 100 * s.correct / s.total)

/-- The `train(epoch)` function (`main.py` lines 28-49), restricted to
the values it returns. -/
def trainPassResult (net : α → List ℚ) (criterion : List (List ℚ) → List ℕ → ℚ)
    (trainloader : List (List (α × ℕ))) : Option (ℚ × ℚ) :=
  passResult net criterion trainloader

/-- The `test(epoch)` function (`main.py` lines 52-76), restricted to
the values it returns; the accounting is identical to `train`'s. -/
def testPassResult (net : α → List ℚ) (criterion : List (List ℚ) → List ℕ → ℚ)
    (testloader : List (List (α × ℕ))) : Option (ℚ × ℚ) :=
  passResult net criterion testloader

/-! ## The optimizer-switch call sites inside `test` -/

/-- The externally visible operations of one `test(epoch)` call, in
program order. -/
inductive TestEvent where
  | moveToBase
  | evalBatch (i : ℕ)
  | moveToOvershoot
  deriving DecidableEq, Repr

/-- The sequence of operations `test` performs (`main.py` lines 52-76):
`if isinstance(optimizer, SGDO): optimizer.move_to_base()`, then the
evaluation loop over `testloader`, then
`if isinstance(optimizer, SGDO): optimizer.move_to_overshoot()`. -/
def testEvents (optimizer : Optimizer) (testloader : List (List (α × ℕ))) :
    List TestEvent :=
  (if isinstanceSGDO optimizer then [TestEvent.moveToBase] else []) ++
  (List.range testloader.length).map TestEvent.evalBatch ++
  (if isinstanceSGDO optimizer then [TestEvent.moveToOvershoot] else [])

/-! ## The per-seed epoch loop of `__main__` (`main.py` lines 176-189) -/

/-- One entry of the `stats` list (`main.py` line 185): the dict
`{"train_loss": ..., "train_acc": ..., "val_loss": ..., "val_acc": ...}`. -/
structure EpochRecord where
  train_loss : ℚ
  train_acc : ℚ
  val_loss : ℚ
  val_acc : ℚ
  deriving DecidableEq, Repr

/-- The operations the epoch loop body performs, in program order
(`main.py` lines 180-185). -/
inductive EpochEvent where
  | trainPass (epoch : ℕ)
  | evalPass (epoch : ℕ)
  | schedulerStep (epoch : ℕ)
  | appendRecord (epoch : ℕ)
  deriving DecidableEq, Repr

/-- The body of `for epoch in range(epochs)`: `train(epoch)`, then
`test(epoch)`, then `scheduler.step()`, then `stats.append(...)`. -/
def epochBlock (epoch : ℕ) : List EpochEvent :=
  [.trainPass epoch, .evalPass epoch, .schedulerStep epoch, .appendRecord epoch]

/-- The event sequence of the whole epoch loop. -/
def epochTrace (epochs : ℕ) : List EpochEvent :=
  (List.range epochs).flatMap epochBlock

/-- `epochs = 200` (`main.py` line 176), also the `T_max` horizon of the
`CosineAnnealingLR` scheduler constructed on line 177. -/
def configuredEpochs : ℕ := 200

/-- The `stats` list after the epoch loop: one record per epoch, built
from the pair returned by `train(epoch)` and the pair returned by
`test(epoch)`, in ascending epoch order. -/
def runStats (epochs : ℕ) (runTrain runTest : ℕ → ℚ × ℚ) : List EpochRecord :=
  (List.range epochs).map (fun e =>
    { train_loss := (runTrain e).1, train_acc := (runTrain e).2
      val_loss := (runTest e).1, val_acc := (runTest e).2 })

/-! ## Log paths and stats.csv (`main.py` lines 96-99 and 189) -/

/-- `os.path.join` on two relative components. -/
def joinPath (a b : String) : String := a ++ "/" ++ b

/-- `base_dir = os.path.join('tensorboard', f"{args.run_name}_overshoot_{args.overshoot}")`
(`main.py` line 96); `overshoot` is the string the f-string renders the
float to. -/
def baseDir (run_name overshoot : String) : String :=
  joinPath "tensorboard" (run_name ++ "_overshoot_" ++ overshoot)

/-- The `SummaryWriter` log directory
`os.path.join(base_dir, f"version_{seed + 1}")` (`main.py` line 98). -/
def logDir (run_name overshoot : String) (seed : ℕ) : String :=
  joinPath (baseDir run_name overshoot) ("version_" ++ toString (seed + 1))

/-- Path of the final csv, `os.path.join(log_writer.log_dir, "stats.csv")`
(`main.py` line 189). -/
def statsCsvPath (run_name overshoot : String) (seed : ℕ) : String :=
  joinPath (logDir run_name overshoot seed) "stats.csv"

/-- The column order `pd.DataFrame(stats)` derives from the record dicts
of `main.py` line 185. -/
def statsCsvColumns : List String := ["train_loss", "train_acc", "val_loss", "val_acc"]

/-- One csv data row per `stats` entry, `index=False`. -/
def recordRow (r : EpochRecord) : List ℚ :=
  [r.train_loss, r.train_acc, r.val_loss, r.val_acc]

/-- The csv as header columns plus data rows. -/
def statsCsv (stats : List EpochRecord) : List String × List (List ℚ) :=
  (statsCsvColumns, stats.map recordRow)

/-! ## Program order of one `__main__` seed iteration (`main.py` lines 92-163) -/

/-- The coarse-grained operations of one iteration of
`for seed in range(n_runs)`, in program order: log setup (lines 96-99),
data preparation — the `torchvision.datasets.CIFAR10` constructions and
the two `DataLoader` constructions (lines 101-123) — then the model
`if/elif` chain (lines 131-163), which either builds a network and
continues into training or raises the unsupported-model exception, which
propagates and aborts the whole program. -/
inductive MainEvent where
  | logSetup
  | dataLoading
  | modelBuilt (m : Model)
  | modelError (msg : String)
  | trainingRun
  deriving DecidableEq, Repr

/-- One iteration of the seed loop, up to the point where training either
starts or the unsupported-model exception aborts it. -/
def seedIteration (modelName : String) : List MainEvent :=
  [MainEvent.logSetup, MainEvent.dataLoading] ++
  (match selectModel modelName with
   | .ok m => [MainEvent.modelBuilt m, MainEvent.trainingRun]
   | .error msg => [MainEvent.modelError msg])

/-- Whether an iteration ended in the unsupported-model exception. -/
def iterationAborted (events : List MainEvent) : Bool :=
  events.any (fun e => match e with
    | MainEvent.modelError _ => true
    | _ => false)

/-- `n_runs = 2` (`main.py` line 91). -/
def nRuns : ℕ := 2

/-- The whole `for seed in range(n_runs)` loop: the second iteration runs
only if the first did not raise (an exception propagates out of the loop
and kills the process). -/
def mainTrace (modelName : String) : List MainEvent :=
  let it0 := seedIteration modelName
  if iterationAborted it0 then it0
  else it0 ++ seedIteration modelName

/-! ## Theorems -/

/-- C3: When `--overshoot` equals its default value 0, the overshoot
capability is disabled (`isinstance(optimizer, SGDO)` is false) and the
optimizer constructed is plain momentum-SGD with learning rate `--lr`,
momentum 0.9, and weight decay 5e-4. -/
theorem overshoot_default_gives_plain_sgd (lr : ℚ) :
    makeOptimizer lr defaultOvershoot = Optimizer.SGD lr (9/10) (5/10000) ∧
    isinstanceSGDO (makeOptimizer lr defaultOvershoot) = false := by
  have h : ¬ (defaultOvershoot > 0) := by norm_num [defaultOvershoot]
  rw [makeOptimizer, if_neg h]
  exact ⟨rfl, rfl⟩

/-- C9: For every `--overshoot` value less than or equal to 0 (not only
exactly 0), the program constructs the plain momentum-SGD optimizer and
the overshoot capability is disabled; the SGDO optimizer is constructed
if and only if `--overshoot` is strictly greater than 0. -/
theorem overshoot_sign_selects_optimizer (lr overshoot : ℚ) :
    (overshoot ≤ 0 →
      makeOptimizer lr overshoot = Optimizer.SGD lr (9/10) (5/10000) ∧
      isinstanceSGDO (makeOptimizer lr overshoot) = false) ∧
    (isinstanceSGDO (makeOptimizer lr overshoot) = true ↔ 0 < overshoot) := by
  constructor
  · intro hle
    have h : ¬ (overshoot > 0) := not_lt.mpr hle
    rw [makeOptimizer, if_neg h]
    exact ⟨rfl, rfl⟩
  · constructor
    · intro h
      by_contra hpos
      have hle : overshoot ≤ 0 := not_lt.mp hpos
      rw [makeOptimizer, if_neg (not_lt.mpr hle)] at h
      simp [isinstanceSGDO] at h
    · intro hpos
      rw [makeOptimizer, if_pos hpos]
      rfl

/-- Witness for `overshoot_sign_selects_optimizer` at `lr = 1/10`,
`overshoot = -1`. -/
theorem overshoot_sign_selects_optimizer_witness :
    makeOptimizer (1/10) (-1) = Optimizer.SGD (1/10) (9/10) (5/10000) ∧
    (isinstanceSGDO (makeOptimizer (1/10) (-1)) = true ↔ 0 < (-1 : ℚ)) :=
  ⟨((overshoot_sign_selects_optimizer (1/10) (-1)).1 (by norm_num)).1,
   (overshoot_sign_selects_optimizer (1/10) (-1)).2⟩

/-- C2: In every evaluation pass, if the optimizer is an SGDO instance
then the trace of `test` starts with `move_to_base` (position 0, before
every evaluation batch), evaluates the batches at positions 1 to n, and
ends with `move_to_overshoot` at position n+1 (after the last batch),
the trace having length n+2; if the optimizer is plain SGD, neither
switch operation ever appears in the trace. -/
theorem test_switches_iff_sgdo (α : Type) (optimizer : Optimizer)
    (testloader : List (List (α × ℕ))) :
    (isinstanceSGDO optimizer = false →
      TestEvent.moveToBase ∉ testEvents optimizer testloader ∧
      TestEvent.moveToOvershoot ∉ testEvents optimizer testloader) ∧
    (isinstanceSGDO optimizer = true →
      (testEvents optimizer testloader).length = testloader.length + 2 ∧
      (testEvents optimizer testloader)[0]? = some TestEvent.moveToBase ∧
      (∀ i < testloader.length,
        (testEvents optimizer testloader)[i + 1]? = some (TestEvent.evalBatch i)) ∧
      (testEvents optimizer testloader)[testloader.length + 1]? =
        some TestEvent.moveToOvershoot) := by
  constructor
  · intro h
    simp [testEvents, h]
  · intro h
    have hrw : testEvents optimizer testloader =
        TestEvent.moveToBase ::
          ((List.range testloader.length).map TestEvent.evalBatch ++
            [TestEvent.moveToOvershoot]) := by
      simp [testEvents, h]
    rw [hrw]
    refine ⟨by simp, by simp, ?_, ?_⟩
    · intro i hi
      have hlen : i < ((List.range testloader.length).map TestEvent.evalBatch).length := by
        simpa using hi
      simp only [List.getElem?_cons_succ]
      rw [List.getElem?_append_left hlen, List.getElem?_map, List.getElem?_range hi]
      rfl
    · have hlen : ((List.range testloader.length).map TestEvent.evalBatch).length ≤
          testloader.length := by simp
      simp only [List.getElem?_cons_succ]
      rw [List.getElem?_append_right hlen]
      simp

/-- Witness for `test_switches_iff_sgdo`: an SGDO optimizer with a
two-batch loader, and a plain SGD optimizer. -/
theorem test_switches_iff_sgdo_witness :
    (testEvents (α := ℕ) (Optimizer.SGDO (1/10) (9/10) (5/10000) (9/10))
        [[(0, 0)], [(1, 1)]])[0]? = some TestEvent.moveToBase ∧
    TestEvent.moveToBase ∉
      testEvents (α := ℕ) (Optimizer.SGD (1/10) (9/10) (5/10000)) [[(0, 0)], [(1, 1)]] :=
  ⟨((test_switches_iff_sgdo ℕ (Optimizer.SGDO (1/10) (9/10) (5/10000) (9/10))
      [[(0, 0)], [(1, 1)]]).2 rfl).2.1,
   ((test_switches_iff_sgdo ℕ (Optimizer.SGD (1/10) (9/10) (5/10000))
      [[(0, 0)], [(1, 1)]]).1 rfl).1⟩

/-- Unrolling the epoch loop by its last iteration. -/
lemma epochTrace_succ (n : ℕ) : epochTrace (n + 1) = epochTrace n ++ epochBlock n := by
  simp [epochTrace, List.range_succ]

/-- Each loop iteration contributes its four operations. -/
lemma epochTrace_length (n : ℕ) : (epochTrace n).length = 4 * n := by
  induction n with
  | zero => rfl
  | succ m ih =>
      rw [epochTrace_succ, List.length_append, ih]
      simp [epochBlock]
      ring

/-- The operation at offset `k` of epoch `e`'s block sits at position
`4*e + k` of the loop trace. -/
lemma epochTrace_getElem_block (n e k : ℕ) (he : e < n) (hk : k < 4) :
    (epochTrace n)[4 * e + k]? = (epochBlock e)[k]? := by
  induction n with
  | zero => omega
  | succ m ih =>
      rw [epochTrace_succ]
      rcases Nat.lt_succ_iff_lt_or_eq.mp he with h | h
      · have hlt : 4 * e + k < (epochTrace m).length := by
          rw [epochTrace_length]; omega
        rw [List.getElem?_append_left hlt]
        exact ih h
      · subst h
        have hge : (epochTrace e).length ≤ 4 * e + k := by
          rw [epochTrace_length]; omega
        rw [List.getElem?_append_right hge, epochTrace_length]
        congr 1
        omega

/-- C7: For every epoch `e` of the loop, the trace performs, in order
and adjacently, the training pass, the evaluation pass, one scheduler
step and the append of the epoch record (positions `4e` to `4e+3`), and
the `stats` list holds at index `e` exactly the record built from the
pair `train(e)` returned and the pair `test(e)` returned — one record
per epoch, in ascending epoch order. -/
theorem epoch_order_train_eval_sched_append (epochs e : ℕ) (he : e < epochs)
    (runTrain runTest : ℕ → ℚ × ℚ) :
    (epochTrace epochs)[4 * e]? = some (EpochEvent.trainPass e) ∧
    (epochTrace epochs)[4 * e + 1]? = some (EpochEvent.evalPass e) ∧
    (epochTrace epochs)[4 * e + 2]? = some (EpochEvent.schedulerStep e) ∧
    (epochTrace epochs)[4 * e + 3]? = some (EpochEvent.appendRecord e) ∧
    (runStats epochs runTrain runTest)[e]? =
      some ⟨(runTrain e).1, (runTrain e).2, (runTest e).1, (runTest e).2⟩ := by
  have h0 := epochTrace_getElem_block epochs e 0 he (by norm_num)
  have h1 := epochTrace_getElem_block epochs e 1 he (by norm_num)
  have h2 := epochTrace_getElem_block epochs e 2 he (by norm_num)
  have h3 := epochTrace_getElem_block epochs e 3 he (by norm_num)
  refine ⟨?_, ?_, ?_, ?_, ?_⟩
  · simpa [epochBlock] using h0
  · simpa [epochBlock] using h1
  · simpa [epochBlock] using h2
  · simpa [epochBlock] using h3
  · rw [runStats, List.getElem?_map, List.getElem?_range he]
    rfl

/-- Witness for `epoch_order_train_eval_sched_append` at epoch 1 of a
3-epoch loop with constant pass results. -/
theorem epoch_order_witness :
    (epochTrace 3)[4 * 1]? = some (EpochEvent.trainPass 1) ∧
    (runStats 3 (fun _ => (1, 2)) (fun _ => (3, 4)))[1]? = some ⟨1, 2, 3, 4⟩ :=
  ⟨(epoch_order_train_eval_sched_append 3 1 (by norm_num)
      (fun _ => (1, 2)) (fun _ => (3, 4))).1,
   (epoch_order_train_eval_sched_append 3 1 (by norm_num)
      (fun _ => (1, 2)) (fun _ => (3, 4))).2.2.2.2⟩

/-- The full log-directory path spelled out. -/
lemma logDir_eq (run_name overshoot : String) (seed : ℕ) :
    logDir run_name overshoot seed =
      "tensorboard/" ++ run_name ++ "_overshoot_" ++ overshoot ++
        "/version_" ++ toString (seed + 1) := by
  simp only [logDir, baseDir, joinPath, String.append_assoc]
  rw [← String.append_assoc "tensorboard" "/"]
  congr 1

/-- C6: The run writes its logs under
`tensorboard/<run_name>_overshoot_<overshoot>/version_<seed+1>/`, and
`stats.csv` in that directory has exactly the columns
`train_loss, train_acc, val_loss, val_acc` and exactly one row (of those
four values) per epoch of the loop. -/
theorem stats_csv_layout (run_name overshoot : String) (seed : ℕ)
    (epochs : ℕ) (runTrain runTest : ℕ → ℚ × ℚ) :
    logDir run_name overshoot seed =
      "tensorboard/" ++ run_name ++ "_overshoot_" ++ overshoot ++
        "/version_" ++ toString (seed + 1) ∧
    statsCsvPath run_name overshoot seed =
      logDir run_name overshoot seed ++ "/stats.csv" ∧
    (statsCsv (runStats epochs runTrain runTest)).1 =
      ["train_loss", "train_acc", "val_loss", "val_acc"] ∧
    (statsCsv (runStats epochs runTrain runTest)).2.length = epochs ∧
    (∀ row ∈ (statsCsv (runStats epochs runTrain runTest)).2, row.length = 4) := by
  refine ⟨logDir_eq run_name overshoot seed, ?_, rfl, ?_, ?_⟩
  · show joinPath (logDir run_name overshoot seed) "stats.csv" = _
    rw [joinPath, String.append_assoc]
    congr 1
  · simp [statsCsv, runStats]
  · intro row hrow
    simp only [statsCsv, List.mem_map] at hrow
    obtain ⟨r, _, hr⟩ := hrow
    rw [← hr]
    rfl

/-- Witness for `stats_csv_layout` at a concrete one-epoch run. -/
theorem stats_csv_layout_witness :
    ([(1 : ℚ), 2, 3, 4] : List ℚ).length = 4 :=
  (stats_csv_layout "r" "0.0" 0 1 (fun _ => (1, 2)) (fun _ => (3, 4))).2.2.2.2
    [1, 2, 3, 4] (by simp [statsCsv, runStats, recordRow, List.range_succ])

/-- The scalar `loss.item()` contributed by one batch:
`criterion(outputs, targets)` on that batch's outputs and targets. -/
def batchLoss (net : α → List ℚ) (criterion : List (List ℚ) → List ℕ → ℚ)
    (batch : List (α × ℕ)) : ℚ :=
  criterion (batch.map (fun p => net p.1)) (batch.map (fun p => p.2))

/-- Closed form of the batch-loop fold from an arbitrary start state. -/
lemma passFold_from (net : α → List ℚ) (criterion : List (List ℚ) → List ℕ → ℚ)
    (loader : List (List (α × ℕ))) (s : PassState) :
    loader.foldl (processBatch net criterion) s =
      ⟨s.loss + (loader.map (batchLoss net criterion)).sum,
       s.correct + (loader.map (batchCorrect net)).sum,
       s.total + (loader.map List.length).sum,
       s.batches + loader.length⟩ := by
  induction loader generalizing s with
  | nil => simp
  | cons b rest ih =>
      rw [List.foldl_cons, ih]
      simp only [processBatch, batchLoss, List.map_cons, List.sum_cons,
        List.length_cons, PassState.mk.injEq]
      refine ⟨by ring, by omega, by omega, by omega⟩

/-- Closed form of the batch-loop fold of one pass. -/
lemma passFold_eq (net : α → List ℚ) (criterion : List (List ℚ) → List ℕ → ℚ)
    (loader : List (List (α × ℕ))) :
    passFold net criterion loader =
      ⟨(loader.map (batchLoss net criterion)).sum,
       (loader.map (batchCorrect net)).sum,
       (loader.map List.length).sum,
       loader.length⟩ := by
  simpa [initPassState] using passFold_from net criterion loader initPassState

/-- C4: For every non-empty training loader, the `train_loss` value the
pass returns is the cumulative sum of the per-batch loss values divided
by the number of batches, each batch weighted equally (a final partial
batch contributes one equally weighted summand like any other batch). -/
theorem train_loss_is_mean_over_batches (α : Type) (net : α → List ℚ)
    (criterion : List (List ℚ) → List ℕ → ℚ)
    (trainloader : List (List (α × ℕ))) (h : trainloader ≠ []) :
    ∃ acc, trainPassResult net criterion trainloader =
      some ((trainloader.map (batchLoss net criterion)).sum /
              (trainloader.length : ℚ), acc) := by
  have hlen : trainloader.length ≠ 0 := by
    simpa [List.length_eq_zero] using h
  refine ⟨100 * ((trainloader.map (batchCorrect net)).sum : ℚ) /
      (((trainloader.map List.length).sum : ℕ) : ℚ), ?_⟩
  rw [trainPassResult, passResult, passFold_eq]
  simp [hlen]

/-- Witness for `train_loss_is_mean_over_batches`: two batches with
losses 1 and 2 give `train_loss = 3/2`. -/
theorem train_loss_is_mean_over_batches_witness :
    ∃ acc, trainPassResult (fun _ : ℕ => [(1 : ℚ), 0])
        (fun outputs _ => (outputs.length : ℚ)) [[(0, 0)], [(1, 1), (2, 0)]] =
      some ((([[(0, 0)], [(1, 1), (2, 0)]] : List (List (ℕ × ℕ))).map
          (batchLoss (fun _ : ℕ => [(1 : ℚ), 0])
            (fun outputs _ => (outputs.length : ℚ)))).sum /
        (([[(0, 0)], [(1, 1), (2, 0)]] : List (List (ℕ × ℕ))).length : ℚ), acc) :=
  train_loss_is_mean_over_batches ℕ (fun _ => [(1 : ℚ), 0])
    (fun outputs _ => (outputs.length : ℚ)) [[(0, 0)], [(1, 1), (2, 0)]] (by simp)

/-- Summing the per-batch correct counts equals counting correct
predictions over the concatenation of all batches. -/
lemma sum_batchCorrect_flatten (net : α → List ℚ) (loader : List (List (α × ℕ))) :
    (loader.map (batchCorrect net)).sum = batchCorrect net loader.flatten := by
  induction loader with
  | nil => rfl
  | cons b rest ih =>
      simp only [List.map_cons, List.sum_cons, List.flatten_cons, batchCorrect,
        List.filter_append, List.length_append]
      rw [← batchCorrect, ← batchCorrect, ih]

/-- A network predicting class 0 on every input. -/
def netClassZero : ℕ → List ℚ := fun _ => [1, 0]

/-- A criterion that is identically 0 (the loss values are irrelevant to
the accuracy computation). -/
def critZero : List (List ℚ) → List ℕ → ℚ := fun _ _ => 0

/-- One batch of two samples of which exactly one is classified
correctly. -/
def loaderHalf : List (List (ℕ × ℕ)) := [[(0, 0), (1, 1)]]

/-- Counterexample to C5 as stated: on a pass whose predictions are
correct on exactly 1 of 2 samples, the reported accuracy is 50, which is
not the fraction correct/total = 1/2 — the code multiplies by 100
(`100.*correct/total`, `main.py` lines 49 and 76). -/
theorem reported_accuracy_not_fraction_cex :
    batchCorrect netClassZero loaderHalf.flatten = 1 ∧
    loaderHalf.flatten.length = 2 ∧
    trainPassResult netClassZero critZero loaderHalf = some (0, 50) ∧
    ((1 : ℚ) / 2 ≠ 50) := by
  refine ⟨?_, rfl, ?_, by norm_num⟩
  · rfl
  · rw [trainPassResult, passResult, passFold_eq]
    norm_num [loaderHalf, batchLoss, critZero, batchCorrect, netClassZero,
      argmaxScores, argmaxScores.go]

/-- C5 amended: For every pass (train and validation alike), the
reported classification accuracy equals 100 times the number of correct
predictions divided by the total number of samples processed in that
pass, i.e. the percentage — not the bare fraction — of correct
predictions. -/
theorem reported_accuracy_is_percentage (α : Type) (net : α → List ℚ)
    (criterion : List (List ℚ) → List ℕ → ℚ)
    (loader : List (List (α × ℕ))) (h : loader ≠ []) :
    ∃ trainLoss valLoss,
      trainPassResult net criterion loader =
        some (trainLoss, 100 * (batchCorrect net loader.flatten : ℚ) /
          (loader.flatten.length : ℚ)) ∧
      testPassResult net criterion loader =
        some (valLoss, 100 * (batchCorrect net loader.flatten : ℚ) /
          (loader.flatten.length : ℚ)) := by
  have hlen : loader.length ≠ 0 := by
    simpa [List.length_eq_zero] using h
  have key : passResult net criterion loader =
      some ((loader.map (batchLoss net criterion)).sum / (loader.length : ℚ),
        100 * (batchCorrect net loader.flatten : ℚ) / (loader.flatten.length : ℚ)) := by
    rw [passResult, passFold_eq]
    simp [hlen, sum_batchCorrect_flatten]
  exact ⟨_, _, key, key⟩

/-- Witness for `reported_accuracy_is_percentage` on the concrete
half-correct batch: the reported accuracy is the percentage 50. -/
theorem reported_accuracy_is_percentage_witness :
    ∃ trainLoss valLoss,
      trainPassResult netClassZero critZero loaderHalf =
        some (trainLoss, 100 * (batchCorrect netClassZero loaderHalf.flatten : ℚ) /
          (loaderHalf.flatten.length : ℚ)) ∧
      testPassResult netClassZero critZero loaderHalf =
        some (valLoss, 100 * (batchCorrect netClassZero loaderHalf.flatten : ℚ) /
          (loaderHalf.flatten.length : ℚ)) :=
  reported_accuracy_is_percentage ℕ netClassZero critZero loaderHalf
    (by simp [loaderHalf])

/-- C10: On an empty loader, both the training pass and the evaluation
pass fail (the `batch_idx` used in the final division was never
assigned, so the `return` raises) instead of returning a pair; on a
non-empty loader whose batches are non-empty, the divisors of the final
divisions — batches seen and total samples — are positive, and both
passes return a value. -/
theorem empty_loader_fails_nonempty_loader_divides (α : Type) (net : α → List ℚ)
    (criterion : List (List ℚ) → List ℕ → ℚ) :
    (trainPassResult net criterion ([] : List (List (α × ℕ))) = none ∧
     testPassResult net criterion ([] : List (List (α × ℕ))) = none) ∧
    (∀ loader : List (List (α × ℕ)), loader ≠ [] → (∀ b ∈ loader, b ≠ []) →
      0 < (passFold net criterion loader).batches ∧
      0 < (passFold net criterion loader).total ∧
      (trainPassResult net criterion loader).isSome = true ∧
      (testPassResult net criterion loader).isSome = true) := by
  constructor
  · exact ⟨rfl, rfl⟩
  · intro loader hne hbatches
    have hlen : 0 < loader.length := List.length_pos.mpr hne
    have htotal : 0 < (loader.map List.length).sum := by
      cases loader with
      | nil => exact absurd rfl hne
      | cons b rest =>
          have hb : b ≠ [] := hbatches b (List.mem_cons_self b rest)
          have : 0 < b.length := List.length_pos.mpr hb
          simp only [List.map_cons, List.sum_cons]
          omega
    refine ⟨?_, ?_, ?_, ?_⟩
    · rw [passFold_eq]; exact hlen
    · rw [passFold_eq]; exact htotal
    · rw [trainPassResult, passResult, passFold_eq]
      simp [Nat.pos_iff_ne_zero.mp hlen]
    · rw [testPassResult, passResult, passFold_eq]
      simp [Nat.pos_iff_ne_zero.mp hlen]

/-- Witness for `empty_loader_fails_nonempty_loader_divides` on the
concrete one-batch loader. -/
theorem empty_loader_fails_witness :
    trainPassResult netClassZero critZero ([] : List (List (ℕ × ℕ))) = none ∧
    0 < (passFold netClassZero critZero loaderHalf).batches ∧
    (trainPassResult netClassZero critZero loaderHalf).isSome = true :=
  ⟨(empty_loader_fails_nonempty_loader_divides ℕ netClassZero critZero).1.1,
   ((empty_loader_fails_nonempty_loader_divides ℕ netClassZero critZero).2 loaderHalf
      (by simp [loaderHalf]) (by simp [loaderHalf])).1,
   ((empty_loader_fails_nonempty_loader_divides ℕ netClassZero critZero).2 loaderHalf
      (by simp [loaderHalf]) (by simp [loaderHalf])).2.2.1⟩

/-- One epoch of training as a function of the seed: `torch.manual_seed
(11 * seed)` (`main.py` line 93) fixes the initial network weights and
the loader shuffling, both modelled as deterministic functions of the
seed value `11 * seed`; the epoch then runs `train` on the shuffled
loader. -/
def runOneEpoch (initNet : ℕ → α → List ℚ)
    (criterion : List (List ℚ) → List ℕ → ℚ)
    (shuffle : ℕ → List (List (α × ℕ)) → List (List (α × ℕ)))
    (seed : ℕ) (loader : List (List (α × ℕ))) : Option (ℚ × ℚ) :=
  trainPassResult (initNet (11 * seed)) criterion (shuffle (11 * seed) loader)

/-- C8: For a fixed random seed and a fixed dataset, one epoch of
training is deterministic: two runs with the same seed and the same
input loader produce identical `(train_loss, train_acc)` results — the
embedded semantics draws on no source of nondeterminism besides the
seed. -/
theorem same_seed_same_data_same_results (α : Type) (initNet : ℕ → α → List ℚ)
    (criterion : List (List ℚ) → List ℕ → ℚ)
    (shuffle : ℕ → List (List (α × ℕ)) → List (List (α × ℕ)))
    (seed₁ seed₂ : ℕ) (loader₁ loader₂ : List (List (α × ℕ)))
    (hs : seed₁ = seed₂) (hl : loader₁ = loader₂) :
    runOneEpoch initNet criterion shuffle seed₁ loader₁ =
      runOneEpoch initNet criterion shuffle seed₂ loader₂ := by
  rw [hs, hl]

/-- Witness for `same_seed_same_data_same_results` at seed 0 on the
concrete loader. -/
theorem same_seed_same_data_same_results_witness :
    runOneEpoch (fun _ => netClassZero) critZero (fun _ l => l) 0 loaderHalf =
      runOneEpoch (fun _ => netClassZero) critZero (fun _ l => l) 0 loaderHalf :=
  same_seed_same_data_same_results ℕ (fun _ => netClassZero) critZero
    (fun _ l => l) 0 0 loaderHalf loaderHalf rfl rfl

/-- Counterexample to C1 as stated: for the unrecognized model name
`"not_a_model"`, the run does raise the unsupported-model error and
aborts, but only *after* data loading — the trace is
`[logSetup, dataLoading, modelError ...]`, with `dataLoading` at
position 1 strictly before the error at position 2, so the error is not
raised before data loading (`main.py` prepares the data on lines 101-123
and selects the model on lines 131-163). -/
theorem unsupported_model_raised_after_data_cex :
    mainTrace "not_a_model" =
      [MainEvent.logSetup, MainEvent.dataLoading,
       MainEvent.modelError "Unsupported model name not_a_model"] ∧
    (mainTrace "not_a_model")[1]? = some MainEvent.dataLoading ∧
    (mainTrace "not_a_model")[2]? =
      some (MainEvent.modelError "Unsupported model name not_a_model") ∧
    ¬ ((mainTrace "not_a_model")[0]? =
      some (MainEvent.modelError "Unsupported model name not_a_model")) := by
  refine ⟨rfl, rfl, rfl, ?_⟩
  intro hcontra
  have : MainEvent.logSetup =
      MainEvent.modelError "Unsupported model name not_a_model" := by
    have h0 : (mainTrace "not_a_model")[0]? = some MainEvent.logSetup := rfl
    rw [h0] at hcontra
    exact Option.some.inj hcontra
  exact absurd this (by simp)

/-- C1 amended: For every unrecognized model identifier, the program
raises the "Unsupported model name" error, which aborts the run — no
training happens and the second seed iteration never starts — but the
error is raised *after* data loading, because `__main__` constructs the
datasets and loaders before the model-selection chain. -/
theorem unsupported_model_aborts_after_data (name msg : String)
    (h : selectModel name = .error msg) :
    msg = "Unsupported model name " ++ name ∧
    mainTrace name =
      [MainEvent.logSetup, MainEvent.dataLoading, MainEvent.modelError msg] ∧
    MainEvent.trainingRun ∉ mainTrace name ∧
    (mainTrace name)[1]? = some MainEvent.dataLoading ∧
    (mainTrace name)[2]? = some (MainEvent.modelError msg) := by
  have hmsg : msg = "Unsupported model name " ++ name := by
    rw [selectModel] at h
    by_cases h1 : name = "vgg"
    · rw [if_pos h1] at h; exact Except.noConfusion h
    rw [if_neg h1] at h
    by_cases h2 : name = "resnet"
    · rw [if_pos h2] at h; exact Except.noConfusion h
    rw [if_neg h2] at h
    by_cases h3 : name = "pre_act_resnet"
    · rw [if_pos h3] at h; exact Except.noConfusion h
    rw [if_neg h3] at h
    by_cases h4 : name = "googlenet"
    · rw [if_pos h4] at h; exact Except.noConfusion h
    rw [if_neg h4] at h
    by_cases h5 : name = "densenet"
    · rw [if_pos h5] at h; exact Except.noConfusion h
    rw [if_neg h5] at h
    by_cases h6 : name = "resnex"
    · rw [if_pos h6] at h; exact Except.noConfusion h
    rw [if_neg h6] at h
    by_cases h7 : name = "mobilenet"
    · rw [if_pos h7] at h; exact Except.noConfusion h
    rw [if_neg h7] at h
    by_cases h8 : name = "mobilenet_v2"
    · rw [if_pos h8] at h; exact Except.noConfusion h
    rw [if_neg h8] at h
    by_cases h9 : name = "dpn"
    · rw [if_pos h9] at h; exact Except.noConfusion h
    rw [if_neg h9] at h
    by_cases h10 : name = "shufflenet"
    · rw [if_pos h10] at h; exact Except.noConfusion h
    rw [if_neg h10] at h
    by_cases h11 : name = "senet"
    · rw [if_pos h11] at h; exact Except.noConfusion h
    rw [if_neg h11] at h
    by_cases h12 : name = "shufflenet_v2"
    · rw [if_pos h12] at h; exact Except.noConfusion h
    rw [if_neg h12] at h
    by_cases h13 : name = "efficientnet"
    · rw [if_pos h13] at h; exact Except.noConfusion h
    rw [if_neg h13] at h
    by_cases h14 : name = "regnetx"
    · rw [if_pos h14] at h; exact Except.noConfusion h
    rw [if_neg h14] at h
    by_cases h15 : name = "dla"
    · rw [if_pos h15] at h; exact Except.noConfusion h
    rw [if_neg h15] at h
    exact (Except.error.inj h).symm
  have hit : seedIteration name =
      [MainEvent.logSetup, MainEvent.dataLoading, MainEvent.modelError msg] := by
    rw [seedIteration, h]
    rfl
  have htr : mainTrace name =
      [MainEvent.logSetup, MainEvent.dataLoading, MainEvent.modelError msg] := by
    rw [mainTrace]
    simp only [hit, iterationAborted, List.any_cons, List.any_nil]
    rfl
  refine ⟨hmsg, htr, ?_, ?_, ?_⟩
  · rw [htr]; simp
  · rw [htr]; rfl
  · rw [htr]; rfl

/-- Witness for `unsupported_model_aborts_after_data` at the concrete
name `"not_a_model"`. -/
theorem unsupported_model_aborts_after_data_witness :
    mainTrace "not_a_model" =
      [MainEvent.logSetup, MainEvent.dataLoading,
       MainEvent.modelError "Unsupported model name not_a_model"] ∧
    MainEvent.trainingRun ∉ mainTrace "not_a_model" :=
  ⟨(unsupported_model_aborts_after_data "not_a_model"
      "Unsupported model name not_a_model" rfl).2.1,
   (unsupported_model_aborts_after_data "not_a_model"
      "Unsupported model name not_a_model" rfl).2.2.1⟩

end PytorchCifar
